import Mathlib

/-!
Verification of the cardiac-device-integration core of the Pill_project
repository: a shallow Lean embedding of the token cache and authentication
manager (authentication.py), the data validation rules (data_models.py,
data_ingestion.py), the duplicate-skipping storage layer, the resilient
HTTP request loop (api_client.py), the Boston Scientific client operations
(boston_scientific.py) and the ingestion pipeline (data_ingestion.py),
together with theorems settling the specification claims.

Modelling conventions:
- datetime values are modelled as integer timestamps (seconds); the
  5-minute expiry buffer is 300 seconds.
- float values are modelled as rationals; the textual rendering of a
  number inside a violation message is ratStr (Python str(float) renders
  250.0 where ratStr renders 250; no claim depends on the digits).
- Python code that signals failure by raising or by returning None is
  modelled with Option / Except, one error constructor per source branch.
- dictionaries keyed by strings are modelled as functions to Option.
-/

namespace Cardiac

/-- Substring test on character lists, used to model the Python
substring operator (pat in s). -/
def listInfixOf (pat : List Char) : List Char → Bool
  | [] => pat.isEmpty
  | c :: cs => pat.isPrefixOf (c :: cs) || listInfixOf pat cs

/-- Python substring containment: strContains s pat models (pat in s). -/
def strContains (s pat : String) : Bool := listInfixOf pat.data s.data

/-- Rendering of a rational into a message string (stand-in for Python
str() on a numeric value; no claim depends on the exact digits). -/
def ratStr (q : ℚ) : String :=
  if q.den = 1 then toString q.num else toString q.num ++ "/" ++ toString q.den

/-- DeviceType enum from data_models.py. -/
inductive DeviceType
  | pacemaker | icd | crt | loop_recorder | remote_monitor
deriving DecidableEq

/-- DeviceStatus enum from data_models.py. -/
inductive DeviceStatus
  | normal | warning | critical | offline | maintenance
deriving DecidableEq

/-- AlertSeverity enum from data_models.py. -/
inductive AlertSeverity
  | info | low | medium | high | critical
deriving DecidableEq

/-- DeviceReading dataclass from data_models.py.  The raw_data and
metadata payloads are opaque dictionaries unused by every claim and are
omitted.  value is the non-optional float field of the dataclass, and
timestamp the non-optional datetime field. -/
structure DeviceReading where
  device_id : String
  patient_id : String
  manufacturer : String
  reading_type : String
  value : ℚ
  unit : String
  timestamp : Int
  device_type : DeviceType
  status : DeviceStatus
deriving DecidableEq

/-- The metadata dictionary attached by _generate_threshold_alerts in
data_ingestion.py. -/
structure AlertMetadata where
  reading_type : String
  reading_value : ℚ
  reading_unit : String
  violation_details : String
deriving DecidableEq

/-- DeviceAlert dataclass from data_models.py (metadata specialised to
the threshold-alert dictionary, the only metadata built by the core). -/
structure DeviceAlert where
  alert_id : String
  device_id : String
  patient_id : String
  manufacturer : String
  alert_type : String
  severity : AlertSeverity
  message : String
  timestamp : Int
  acknowledged : Bool := false
  acknowledged_by : Option String := none
  acknowledged_at : Option Int := none
  resolved : Bool := false
  resolved_at : Option Int := none
  metadata : Option AlertMetadata := none
deriving DecidableEq

/-- PatientDevice dataclass from data_models.py (settings dictionary
omitted as opaque and unused by every claim). -/
structure PatientDevice where
  device_id : String
  patient_id : String
  manufacturer : String
  model : String
  device_type : DeviceType
  implant_date : Int
  last_communication : Option Int := none
  battery_level : Option ℚ := none
  status : DeviceStatus := DeviceStatus.normal
deriving DecidableEq

/-- One entry of DataValidationRules.NORMAL_RANGES in data_models.py. -/
structure RangeInfo where
  min : ℚ
  max : ℚ
  unit : String
deriving DecidableEq

/-- DataValidationRules.NORMAL_RANGES from data_models.py. -/
def NORMAL_RANGES : List (String × RangeInfo) :=
  [("heart_rate", ⟨30, 200, "bpm"⟩),
   ("battery_voltage", ⟨2, mkRat 7 2, "V"⟩),
   ("lead_impedance", ⟨200, 2000, "ohms"⟩),
   ("sensing_threshold", ⟨mkRat 1 2, 10, "mV"⟩),
   ("pacing_threshold", ⟨mkRat 1 4, 5, "V"⟩),
   ("episode_count", ⟨0, 1000, "count"⟩)]

namespace DataValidationRules

/-- DataValidationRules.validate_reading from data_models.py: the range
and unit checks against NORMAL_RANGES, one violation string per failed
check, no short-circuiting. -/
def validate_reading (reading : DeviceReading) : List String :=
  match NORMAL_RANGES.lookup reading.reading_type with
  | none => []
  | some range_info =>
      (if reading.value < range_info.min then
        [reading.reading_type ++ " below normal range: " ++ ratStr reading.value
          ++ " < " ++ ratStr range_info.min ++ " " ++ range_info.unit]
       else []) ++
      (if reading.value > range_info.max then
        [reading.reading_type ++ " above normal range: " ++ ratStr reading.value
          ++ " > " ++ ratStr range_info.max ++ " " ++ range_info.unit]
       else []) ++
      (if reading.unit ≠ range_info.unit then
        ["Unit mismatch for " ++ reading.reading_type ++ ": expected "
          ++ range_info.unit ++ ", got " ++ reading.unit]
       else [])

end DataValidationRules

/-- IngestionConfig dataclass from data_ingestion.py, with the source
defaults. -/
structure IngestionConfig where
  batch_size : Nat := 100
  retry_attempts : Nat := 3
  retry_delay : Nat := 5
  max_workers : Nat := 4
  validation_enabled : Bool := true
  duplicate_check_window : Nat := 24
  alert_threshold_violations : Bool := true
deriving DecidableEq

/-- The default IngestionConfig (IngestionConfig() in Python). -/
def defaultConfig : IngestionConfig := {}

namespace DataValidator

/-- DataValidator.validate_reading from data_ingestion.py: empty when
validation is disabled, else the presence checks followed by the range
checks.  The source also tests (reading.value is None) and
(not reading.timestamp); for a well-typed reading neither can fire
(value is a non-optional float, and a Python datetime is always truthy),
so both checks are modelled as always passing. -/
def validate_reading (config : IngestionConfig) (reading : DeviceReading) : List String :=
  if ¬ config.validation_enabled then []
  else
    (if reading.device_id = "" then ["Missing device_id"] else []) ++
    (if reading.patient_id = "" then ["Missing patient_id"] else []) ++
    (if reading.unit = "" then ["Missing unit"] else []) ++
    DataValidationRules.validate_reading reading

/-- DataValidator.validate_readings_batch from data_ingestion.py.  The
Python result is a dict keyed by the string "reading_i" for index i;
since that key format is injective in i, the dict is modelled as the
list of (index, violations) pairs, omitting indices with no violations
exactly as the source does. -/
def validate_readings_batch (config : IngestionConfig) (readings : List DeviceReading) :
    List (Nat × List String) :=
  readings.enum.filterMap (fun p =>
    let violations := validate_reading config p.2
    if violations.isEmpty then none else some (p.1, violations))

end DataValidator

/-- AuthToken dataclass from authentication.py. -/
structure AuthToken where
  access_token : String
  token_type : String := "Bearer"
  expires_at : Option Int := none
  refresh_token : Option String := none
  scope : Option String := none
deriving DecidableEq

/-- The in-memory token dictionary of TokenCache in authentication.py,
modelled as a map from manufacturer to token. -/
def TokenCacheMap : Type := String → Option AuthToken

namespace TokenCache

/-- TokenCache._is_token_expired from authentication.py: a token with no
expires_at never expires; otherwise it is expired once
now + 5 minutes >= expires_at (300 seconds of buffer). -/
def is_token_expired (now : Int) (token : AuthToken) : Bool :=
  match token.expires_at with
  | none => false
  | some e => decide (now + 300 ≥ e)

/-- TokenCache.store_token from authentication.py. -/
def store_token (cache : TokenCacheMap) (manufacturer : String) (token : AuthToken) :
    TokenCacheMap :=
  fun k => if k = manufacturer then some token else cache k

/-- TokenCache.get_token from authentication.py: lazily evaluates
expiry, evicting and returning none when the stored token is expired.
Returns the (possibly shrunk) cache alongside the result. -/
def get_token (now : Int) (cache : TokenCacheMap) (manufacturer : String) :
    Option AuthToken × TokenCacheMap :=
  match cache manufacturer with
  | none => (none, cache)
  | some token =>
      if is_token_expired now token then
        (none, fun k => if k = manufacturer then none else cache k)
      else
        (some token, cache)

end TokenCache

namespace BostonScientificAuthProvider

/-- BostonScientificAuthProvider.is_token_valid from
boston_scientific.py: valid when expires_at is unset, else when
now + 5 minutes < expires_at. -/
def is_token_valid (now : Int) (token : AuthToken) : Bool :=
  match token.expires_at with
  | none => true
  | some e => decide (now + 300 < e)

end BostonScientificAuthProvider

/-- The normal heart-rate reading of Scenario A (value 72, unit bpm). -/
def hr72 : DeviceReading :=
  { device_id := "TEST-001", patient_id := "PAT001", manufacturer := "boston_scientific",
    reading_type := "heart_rate", value := 72, unit := "bpm", timestamp := 0,
    device_type := DeviceType.pacemaker, status := DeviceStatus.normal }

/-- The abnormal heart-rate reading of Scenario B (value 250, unit bpm). -/
def hr250 : DeviceReading :=
  { hr72 with value := 250 }

/-- A reading violating both the range and the unit rule at once. -/
def hr250beats : DeviceReading :=
  { hr72 with value := 250, unit := "beats" }

/-- A configuration with validation disabled. -/
def cfgValidationOff : IngestionConfig := { validation_enabled := false }

/-- A concrete one-entry token cache for the C2 witness: the stored
token expires at 1300 and the query happens at 1000, exactly the
5-minute buffer edge. -/
def c2CacheExample : TokenCacheMap :=
  fun k => if k = "boston_scientific"
    then some { access_token := "tok", expires_at := some 1300 }
    else none

/-- The source key equality used by the duplicate check of
DatabaseConnection._is_duplicate_reading: same device_id, reading_type
and timestamp. -/
def readingKeyMatches (s r : DeviceReading) : Bool :=
  s.device_id == r.device_id && s.reading_type == r.reading_type && s.timestamp == r.timestamp

namespace DatabaseConnection

/-- DatabaseConnection._is_duplicate_reading from data_ingestion.py:
the SELECT COUNT query over the stored rows with the same
(device_id, reading_type, timestamp); no time window is involved. -/
def is_duplicate_reading (stored : List DeviceReading) (reading : DeviceReading) : Bool :=
  stored.any (fun s => readingKeyMatches s reading)

/-- DatabaseConnection.store_device_readings from data_ingestion.py:
inserts each batch reading that is not a duplicate of an
already-stored row (earlier batch insertions included, as they are
visible to the duplicate SELECT on the same connection) and returns the
count of rows actually inserted together with the new table state. -/
def store_device_readings (readings : List DeviceReading) (stored : List DeviceReading) :
    Nat × List DeviceReading :=
  match readings with
  | [] => (0, stored)
  | r :: rest =>
      if is_duplicate_reading stored r then
        store_device_readings rest stored
      else
        let res := store_device_readings rest (stored ++ [r])
        (res.1 + 1, res.2)

/-- DatabaseConnection.store_device_alerts from data_ingestion.py:
inserts each alert whose alert_id is not already stored, returning the
inserted count. -/
def store_device_alerts (alerts : List DeviceAlert) (stored : List DeviceAlert) :
    Nat × List DeviceAlert :=
  match alerts with
  | [] => (0, stored)
  | a :: rest =>
      if stored.any (fun s => s.alert_id == a.alert_id) then
        store_device_alerts rest stored
      else
        let res := store_device_alerts rest (stored ++ [a])
        (res.1 + 1, res.2)

end DatabaseConnection

/-- The two tables of the storage sink. -/
structure DBState where
  readings : List DeviceReading
  alerts : List DeviceAlert
deriving DecidableEq

/-- AuthCredentials dataclass from authentication.py
(additional_params omitted as opaque and unused by every claim). -/
structure AuthCredentials where
  manufacturer : String
  client_id : String
  client_secret : String
  api_key : Option String := none
  environment : String := "production"
deriving DecidableEq

/-- The behavior of a registered AuthenticationProvider in one run:
the outcome of the await provider.authenticate(credentials) call
(ok token, or the raised exception rendered as a message). -/
structure ProviderBehavior where
  authenticate : AuthCredentials → Except String AuthToken

/-- The mutable state of AuthenticationManager from authentication.py:
the token cache, the credential storage contents and the registered
providers. -/
structure AuthManagerState where
  tokens : TokenCacheMap
  credentials : String → Option AuthCredentials
  providers : String → Option ProviderBehavior

/-- The failure cause of AuthenticationManager.get_valid_token.  The
Python method signals every failure by returning None after logging a
branch-specific error message; each constructor corresponds to exactly
one such source branch (no credentials found / no provider registered /
authentication failed for the manufacturer). -/
inductive GetTokenError
  | credentialsMissing
  | providerMissing
  | authenticationFailed (msg : String)
deriving DecidableEq

namespace AuthenticationManager

/-- AuthenticationManager.get_valid_token from authentication.py:
return a live cached token if present; else load credentials (failing
when absent), look up the provider (failing when absent), authenticate,
cache and return the fresh token; a provider exception is caught and
surfaced as the authentication-failed outcome. -/
def get_valid_token (now : Int) (st : AuthManagerState) (manufacturer : String) :
    Except GetTokenError AuthToken × AuthManagerState :=
  let res := TokenCache.get_token now st.tokens manufacturer
  match res.1 with
  | some cached => (Except.ok cached, { st with tokens := res.2 })
  | none =>
      match st.credentials manufacturer with
      | none => (Except.error GetTokenError.credentialsMissing, { st with tokens := res.2 })
      | some creds =>
          match st.providers manufacturer with
          | none => (Except.error GetTokenError.providerMissing, { st with tokens := res.2 })
          | some provider =>
              match provider.authenticate creds with
              | Except.ok token =>
                  (Except.ok token,
                   { st with tokens := TokenCache.store_token res.2 manufacturer token })
              | Except.error e =>
                  (Except.error (GetTokenError.authenticationFailed e),
                   { st with tokens := res.2 })

end AuthenticationManager

/-- What one HTTP attempt of BaseHTTPClient._make_request observes: a
network-level failure (timeout, reset, unparsable body), or a response
with a status code, an optional Retry-After header and a parsed body. -/
inductive AttemptOutcome
  | networkFailure
  | response (status : Nat) (retry_after : Option Nat) (body : String)

/-- The outcome of BaseHTTPClient._make_request: the returned parsed
body, or one of the raised exceptions (RateLimitError,
AuthenticationError, APIError with a status, APIError wrapping the last
network-level exception). -/
inductive RequestResult
  | ok (body : String)
  | rateLimitExceeded
  | authenticationFailed
  | apiErrorStatus (status : Nat) (body : String)
  | apiErrorNetwork
deriving DecidableEq

namespace BaseHTTPClient

/-- The retry loop of BaseHTTPClient._make_request, one recursive step
per attempt; fuel is the number of attempts still allowed
(max_retries + 1 - attempt), so the fuel-exhausted case is unreachable
from make_request.  The second component is the list of sleeps
performed, in order: Retry-After (default 60) after a 429 with attempts
remaining, 2 ^ attempt after a network failure with attempts
remaining. -/
def request_loop (responses : Nat → AttemptOutcome) (max_retries attempt fuel : Nat)
    (sleeps : List Nat) : RequestResult × List Nat :=
  match fuel with
  | 0 => (RequestResult.apiErrorNetwork, sleeps)
  | fuel' + 1 =>
      match responses attempt with
      | AttemptOutcome.networkFailure =>
          if attempt < max_retries then
            request_loop responses max_retries (attempt + 1) fuel' (sleeps ++ [2 ^ attempt])
          else
            (RequestResult.apiErrorNetwork, sleeps)
      | AttemptOutcome.response status retry_after body =>
          if status == 429 then
            if attempt < max_retries then
              request_loop responses max_retries (attempt + 1) fuel'
                (sleeps ++ [retry_after.getD 60])
            else
              (RequestResult.rateLimitExceeded, sleeps)
          else if status == 401 then
            (RequestResult.authenticationFailed, sleeps)
          else if status ≥ 400 then
            (RequestResult.apiErrorStatus status body, sleeps)
          else
            (RequestResult.ok body, sleeps)

/-- BaseHTTPClient._make_request from api_client.py, as a function of
the per-attempt observations and the retry budget (source default 3). -/
def make_request (responses : Nat → AttemptOutcome) (max_retries : Nat := 3) :
    RequestResult × List Nat :=
  request_loop responses max_retries 0 (max_retries + 1) []

end BaseHTTPClient

/-- The outcome a caller of a BostonScientificClient operation
observes: the returned value, or the raised exception by class
(generic APIError, or AuthenticationError). -/
inductive ApiOutcome (α : Type)
  | ok (val : α)
  | apiError (msg : String)
  | authenticationError (msg : String)
deriving DecidableEq

/-- Whether an outcome is a raised AuthenticationError. -/
def ApiOutcome.isAuthError {α : Type} : ApiOutcome α → Bool
  | ApiOutcome.authenticationError _ => true
  | _ => false

namespace BostonScientificClient

/-- BostonScientificClient.get_patient_devices from
boston_scientific.py, as a function of the token obtained from the
authentication manager and of the vendor-call outcome.  The boolean
records whether the vendor call was attempted.  With no token the
method raises AuthenticationError internally, but its blanket
except-clause catches every exception and re-raises APIError wrapping
the message, so the caller observes an APIError. -/
def get_patient_devices (token : Option AuthToken)
    (api : Except String (List PatientDevice)) : ApiOutcome (List PatientDevice) × Bool :=
  match token with
  | none => (ApiOutcome.apiError "Failed to get patient devices: No valid token available", false)
  | some _ =>
      match api with
      | Except.ok devices => (ApiOutcome.ok devices, true)
      | Except.error e => (ApiOutcome.apiError ("Failed to get patient devices: " ++ e), true)

/-- BostonScientificClient.get_device_readings from
boston_scientific.py (same wrapping pattern as get_patient_devices). -/
def get_device_readings (token : Option AuthToken)
    (api : Except String (List DeviceReading)) : ApiOutcome (List DeviceReading) × Bool :=
  match token with
  | none => (ApiOutcome.apiError "Failed to get device readings: No valid token available", false)
  | some _ =>
      match api with
      | Except.ok readings => (ApiOutcome.ok readings, true)
      | Except.error e => (ApiOutcome.apiError ("Failed to get device readings: " ++ e), true)

/-- BostonScientificClient.get_device_alerts from boston_scientific.py
(same wrapping pattern). -/
def get_device_alerts (token : Option AuthToken)
    (api : Except String (List DeviceAlert)) : ApiOutcome (List DeviceAlert) × Bool :=
  match token with
  | none => (ApiOutcome.apiError "Failed to get device alerts: No valid token available", false)
  | some _ =>
      match api with
      | Except.ok alerts => (ApiOutcome.ok alerts, true)
      | Except.error e => (ApiOutcome.apiError ("Failed to get device alerts: " ++ e), true)

/-- BostonScientificClient.get_device_status from boston_scientific.py
(same wrapping pattern; the status map is opaque). -/
def get_device_status (token : Option AuthToken)
    (api : Except String String) : ApiOutcome String × Bool :=
  match token with
  | none => (ApiOutcome.apiError "Failed to get device status: No valid token available", false)
  | some _ =>
      match api with
      | Except.ok status => (ApiOutcome.ok status, true)
      | Except.error e => (ApiOutcome.apiError ("Failed to get device status: " ++ e), true)

/-- BostonScientificClient.acknowledge_alert from boston_scientific.py:
its except-clause swallows every exception and returns False, so with
no token the caller simply observes False (after the internal
AuthenticationError), with no vendor call attempted. -/
def acknowledge_alert (token : Option AuthToken)
    (api : Except String Unit) : ApiOutcome Bool × Bool :=
  match token with
  | none => (ApiOutcome.ok false, false)
  | some _ =>
      match api with
      | Except.ok _ => (ApiOutcome.ok true, true)
      | Except.error _ => (ApiOutcome.ok false, true)

end BostonScientificClient

/-- IngestionStats from data_ingestion.py (start/end wall-clock times
omitted: no claim concerns them). -/
structure IngestionStats where
  total_readings : Nat := 0
  successful_readings : Nat := 0
  failed_readings : Nat := 0
  duplicate_readings : Nat := 0
  validation_failures : Nat := 0
  alerts_generated : Nat := 0
  errors : List String := []
deriving DecidableEq

/-- The field-wise aggregation of per-device stats into a running
total performed by ingest_patient_data (counters added, error lists
concatenated). -/
def IngestionStats.add (a b : IngestionStats) : IngestionStats :=
  { total_readings := a.total_readings + b.total_readings,
    successful_readings := a.successful_readings + b.successful_readings,
    failed_readings := a.failed_readings + b.failed_readings,
    duplicate_readings := a.duplicate_readings + b.duplicate_readings,
    validation_failures := a.validation_failures + b.validation_failures,
    alerts_generated := a.alerts_generated + b.alerts_generated,
    errors := a.errors ++ b.errors }

/-- The behavior of one registered DeviceAPIClient during one run: the
outcome of each awaited call (ok value, or the raised exception
rendered as a message). -/
structure ClientBehavior where
  get_patient_devices : String → Except String (List PatientDevice)
  get_recent_readings : String → Except String (List DeviceReading)
  get_device_alerts : String → Except String (List DeviceAlert)

/-- The storage sink used by the pipeline.  Each store call either
returns the inserted count with the new state, or raises (the error
carries the message and the state the failed call left behind). -/
structure Sink where
  store_readings : List DeviceReading → DBState → Except (String × DBState) (Nat × DBState)
  store_alerts : List DeviceAlert → DBState → Except (String × DBState) (Nat × DBState)

/-- The never-raising sink implementing exactly the source
DatabaseConnection semantics. -/
def pureSink : Sink where
  store_readings := fun rs db =>
    let res := DatabaseConnection.store_device_readings rs db.readings
    Except.ok (res.1, { db with readings := res.2 })
  store_alerts := fun al db =>
    let res := DatabaseConnection.store_device_alerts al db.alerts
    Except.ok (res.1, { db with alerts := res.2 })

/-- The fixed collaborators of a DataIngestionPipeline run: the
configuration, the registered API clients (registry written once at
startup), the storage sink, and the stream of fresh uuid4 strings used
for synthesized alert ids (the i-th generated alert of a call gets
uuid i). -/
structure PipelineEnv where
  config : IngestionConfig
  clients : List (String × ClientBehavior)
  sink : Sink
  uuid : Nat → String

namespace DataIngestionPipeline

/-- The filtering step of _ingest_device_data (data_ingestion.py lines
374-380): when validation is enabled and there are validation failures,
drop every reading whose index appears in the batch results. -/
def filter_valid_readings (config : IngestionConfig) (readings : List DeviceReading)
    (validation_results : List (Nat × List String)) : List DeviceReading :=
  if config.validation_enabled && !validation_results.isEmpty then
    readings.enum.filterMap (fun p =>
      if (validation_results.lookup p.1).isSome then none else some p.2)
  else
    readings

/-- DataIngestionPipeline._generate_threshold_alerts from
data_ingestion.py: re-run the range validator on the given readings and
emit one DeviceAlert per violation whose message mentions a normal
range, severity high when the violation mentions Critical and medium
otherwise, alert_type threshold_violation, a fresh uuid4 id per
alert. -/
def generate_threshold_alerts (uuid : Nat → String) (readings : List DeviceReading)
    (device : PatientDevice) : List DeviceAlert :=
  let pairs := readings.flatMap (fun r =>
    (DataValidationRules.validate_reading r).filterMap (fun v =>
      if strContains v "above normal range" || strContains v "below normal range" then
        some (r, v)
      else none))
  pairs.enum.map (fun p =>
    { alert_id := uuid p.1,
      device_id := device.device_id,
      patient_id := device.patient_id,
      manufacturer := device.manufacturer,
      alert_type := "threshold_violation",
      severity := if strContains p.2.2 "Critical" then AlertSeverity.high else AlertSeverity.medium,
      message := "Threshold violation detected: " ++ p.2.2,
      timestamp := p.2.1.timestamp,
      metadata := some { reading_type := p.2.1.reading_type,
                         reading_value := p.2.1.value,
                         reading_unit := p.2.1.unit,
                         violation_details := p.2.2 } })

/-- The error string logged and recorded when device ingestion catches
an exception. -/
def deviceFailMsg (device : PatientDevice) (e : String) : String :=
  "Failed to ingest data for device " ++ device.device_id ++ ": " ++ e

/-- The final stage of _ingest_device_data: fetch the native vendor
alerts and persist them, adding the stored count to alerts_generated;
an exception here takes the catch-all path (error recorded,
failed_readings set to total_readings, earlier persistence kept). -/
def native_alerts_stage (env : PipelineEnv) (client : ClientBehavior) (device : PatientDevice)
    (db : DBState) (stats : IngestionStats) : IngestionStats × DBState :=
  match client.get_device_alerts device.device_id with
  | Except.error e =>
      ({ stats with failed_readings := stats.total_readings,
                    errors := stats.errors ++ [deviceFailMsg device e] }, db)
  | Except.ok device_alerts =>
      if device_alerts.isEmpty then
        (stats, db)
      else
        match env.sink.store_alerts device_alerts db with
        | Except.error (e, db') =>
            ({ stats with failed_readings := stats.total_readings,
                          errors := stats.errors ++ [deviceFailMsg device e] }, db')
        | Except.ok (stored_alerts, db') =>
            ({ stats with alerts_generated := stats.alerts_generated + stored_alerts }, db')

/-- DataIngestionPipeline._ingest_device_data from data_ingestion.py:
resolve the client, fetch recent readings, validate and filter, persist
the survivors (difference attempted minus inserted becomes
duplicate_readings), synthesize and persist threshold alerts over the
persisted-candidate list (alerts_generated set to the number of
synthesized alerts), then fetch and persist native alerts.  Every
exception is caught: the message is recorded in errors and
failed_readings is set to total_readings as known at that point. -/
def ingest_device_data (env : PipelineEnv) (device : PatientDevice) (db : DBState) :
    IngestionStats × DBState :=
  match env.clients.lookup device.manufacturer with
  | none =>
      ({ errors := ["No API client registered for manufacturer: " ++ device.manufacturer] }, db)
  | some client =>
      match client.get_recent_readings device.device_id with
      | Except.error e =>
          ({ errors := [deviceFailMsg device e] }, db)
      | Except.ok fetched =>
          if fetched.isEmpty then
            native_alerts_stage env client device db { total_readings := fetched.length }
          else
            let validation_results := DataValidator.validate_readings_batch env.config fetched
            let kept := filter_valid_readings env.config fetched validation_results
            match env.sink.store_readings kept db with
            | Except.error (e, db') =>
                ({ total_readings := fetched.length,
                   validation_failures := validation_results.length,
                   failed_readings := fetched.length,
                   errors := [deviceFailMsg device e] }, db')
            | Except.ok (stored_count, db1) =>
                let base : IngestionStats :=
                  { total_readings := fetched.length,
                    validation_failures := validation_results.length,
                    successful_readings := stored_count,
                    duplicate_readings := kept.length - stored_count }
                if env.config.alert_threshold_violations then
                  let alerts := generate_threshold_alerts env.uuid kept device
                  if alerts.isEmpty then
                    native_alerts_stage env client device db1 base
                  else
                    match env.sink.store_alerts alerts db1 with
                    | Except.error (e, db') =>
                        ({ base with failed_readings := fetched.length,
                                     errors := [deviceFailMsg device e] }, db')
                    | Except.ok (_, db2) =>
                        native_alerts_stage env client device db2
                          { base with alerts_generated := alerts.length }
                else
                  native_alerts_stage env client device db1 base

/-- DataIngestionPipeline.ingest_patient_data from data_ingestion.py:
discover devices across the requested manufacturers (default: all
registered), recording one error string per manufacturer whose
discovery raises and skipping unregistered ones, then ingest every
discovered device, folding the per-device stats into the total. -/
def ingest_patient_data (env : PipelineEnv) (patient_id : String)
    (manufacturers : Option (List String)) (db : DBState) : IngestionStats × DBState :=
  let ms := manufacturers.getD (env.clients.map Prod.fst)
  let discovery := ms.foldl (fun (acc : List PatientDevice × List String) m =>
      match env.clients.lookup m with
      | none => acc
      | some client =>
          match client.get_patient_devices patient_id with
          | Except.ok devs => (acc.1 ++ devs, acc.2)
          | Except.error e =>
              (acc.1, acc.2 ++ ["Failed to get devices for patient " ++ patient_id
                ++ " from " ++ m ++ ": " ++ e]))
    ([], [])
  discovery.1.foldl (fun acc device =>
      let res := ingest_device_data env device acc.2
      (IngestionStats.add acc.1 res.1, res.2))
    ({ errors := discovery.2 }, db)

end DataIngestionPipeline

/-- The empty storage state. -/
def dbEmpty : DBState := { readings := [], alerts := [] }

/-- A Boston Scientific ICD device, for the concrete pipeline runs. -/
def deviceA : PatientDevice :=
  { device_id := "BSC-PAT001-001", patient_id := "PAT001",
    manufacturer := "boston_scientific", model := "DYNAGEN X4",
    device_type := DeviceType.icd, implant_date := 0 }

/-- A deterministic stand-in for the stream of fresh uuid4 strings. -/
def uuidSeq : Nat → String := fun i => "uuid-" ++ toString i

/-- A client whose recent-readings fetch returns exactly the one
out-of-range heart-rate reading, with no native alerts. -/
def clientHR250 : ClientBehavior :=
  { get_patient_devices := fun _ => Except.ok [deviceA],
    get_recent_readings := fun _ => Except.ok [hr250],
    get_device_alerts := fun _ => Except.ok [] }

/-- A pipeline environment using the source default configuration
(validation enabled, threshold alerts enabled) over clientHR250. -/
def envDefault : PipelineEnv :=
  { config := defaultConfig,
    clients := [("boston_scientific", clientHR250)],
    sink := pureSink, uuid := uuidSeq }

/-- The same environment with validation disabled (threshold alerts
still enabled). -/
def envValidationOff : PipelineEnv :=
  { envDefault with config := cfgValidationOff }

/-- A reading whose only violation is a unit mismatch. -/
def hrUnitOnly : DeviceReading := { hr72 with unit := "V" }

/-- A reading whose only violation is a missing device_id. -/
def hrMissingId : DeviceReading := { hr72 with device_id := "" }

/-- A valid reading tagged with the device id that makes faultySink
raise. -/
def badReading : DeviceReading := { hr72 with device_id := "BAD" }

/-- A sink that raises on any batch containing a reading of device BAD
and otherwise behaves like the pure sink (fault injection for Scenario
E). -/
def faultySink : Sink :=
  { store_readings := fun rs db =>
      if rs.any (fun r => r.device_id == "BAD") then
        Except.error ("database write failed", db)
      else
        pureSink.store_readings rs db,
    store_alerts := pureSink.store_alerts }

/-- The device whose readings make faultySink raise. -/
def deviceBad : PatientDevice := { deviceA with device_id := "DEV-BAD" }

/-- A second device of the same manufacturer whose ingestion
succeeds. -/
def deviceGood : PatientDevice := { deviceA with device_id := "DEV-GOOD" }

/-- A client discovering deviceBad then deviceGood, serving the
failing batch for the former and a clean reading for the latter. -/
def clientTwoDevices : ClientBehavior :=
  { get_patient_devices := fun _ => Except.ok [deviceBad, deviceGood],
    get_recent_readings := fun d =>
      if d == "DEV-BAD" then Except.ok [badReading] else Except.ok [hr72],
    get_device_alerts := fun _ => Except.ok [] }

/-- The Scenario E environment: default configuration, one
manufacturer with two devices, a sink that raises on the first device. -/
def envScenarioE : PipelineEnv :=
  { config := defaultConfig,
    clients := [("boston_scientific", clientTwoDevices)],
    sink := faultySink, uuid := uuidSeq }

/-- A client whose recent-readings fetch raises. -/
def clientFetchFail : ClientBehavior :=
  { get_patient_devices := fun _ => Except.ok [],
    get_recent_readings := fun _ => Except.error "connection timeout",
    get_device_alerts := fun _ => Except.ok [] }

/-- An environment whose reading fetch raises. -/
def envFetchFail : PipelineEnv :=
  { config := defaultConfig,
    clients := [("boston_scientific", clientFetchFail)],
    sink := pureSink, uuid := uuidSeq }

/-- A client whose native-alerts fetch raises after a clean reading
fetch. -/
def clientAlertsFail : ClientBehavior :=
  { get_patient_devices := fun _ => Except.ok [],
    get_recent_readings := fun _ => Except.ok [hr72],
    get_device_alerts := fun _ => Except.error "alerts endpoint down" }

/-- An environment (threshold alerts disabled) whose native-alerts
fetch raises after readings have been persisted. -/
def envAlertsFail : PipelineEnv :=
  { config := { alert_threshold_violations := false },
    clients := [("boston_scientific", clientAlertsFail)],
    sink := pureSink, uuid := uuidSeq }

/-- A manufacturer-X client whose device discovery raises. -/
def clientXFail : ClientBehavior :=
  { get_patient_devices := fun _ => Except.error "service unavailable",
    get_recent_readings := fun _ => Except.ok [],
    get_device_alerts := fun _ => Except.ok [] }

/-- A manufacturer-Y device (first of two). -/
def deviceY1 : PatientDevice := { deviceA with device_id := "Y-001", manufacturer := "Y" }

/-- A manufacturer-Y device (second of two). -/
def deviceY2 : PatientDevice := { deviceA with device_id := "Y-002", manufacturer := "Y" }

/-- A manufacturer-Y client discovering two devices, each with one
clean reading. -/
def clientY2 : ClientBehavior :=
  { get_patient_devices := fun _ => Except.ok [deviceY1, deviceY2],
    get_recent_readings := fun d =>
      if d == "Y-001" then Except.ok [hr72]
      else Except.ok [{ hr72 with device_id := "Y-002" }],
    get_device_alerts := fun _ => Except.ok [] }

/-- The Scenario D environment: manufacturer X raising on discovery,
manufacturer Y succeeding with two devices. -/
def envScenarioD : PipelineEnv :=
  { config := defaultConfig,
    clients := [("X", clientXFail), ("Y", clientY2)],
    sink := pureSink, uuid := uuidSeq }

/-- C9: validate_reading returns the empty violation list when
validation_enabled is false; otherwise it runs the presence checks and
then the range and unit checks without short-circuiting, one violation
string per failed check (so one reading can yield several violations);
heart_rate 72 bpm yields no violation and heart_rate 250 bpm yields
exactly one violation mentioning "above normal range". -/
theorem c9_validate_reading_behavior :
    (∀ config reading, config.validation_enabled = false →
        DataValidator.validate_reading config reading = []) ∧
    (∀ config reading, config.validation_enabled = true →
        (DataValidator.validate_reading config reading).length =
          ((if reading.device_id = "" then 1 else 0) +
           (if reading.patient_id = "" then 1 else 0) +
           (if reading.unit = "" then 1 else 0)) +
          (DataValidationRules.validate_reading reading).length) ∧
    (∀ reading range_info,
        NORMAL_RANGES.lookup reading.reading_type = some range_info →
        (DataValidationRules.validate_reading reading).length =
          (if reading.value < range_info.min then 1 else 0) +
          (if reading.value > range_info.max then 1 else 0) +
          (if reading.unit ≠ range_info.unit then 1 else 0)) ∧
    DataValidator.validate_reading defaultConfig hr72 = [] ∧
    (DataValidator.validate_reading defaultConfig hr250 =
        ["heart_rate above normal range: 250 > 200 bpm"] ∧
      strContains "heart_rate above normal range: 250 > 200 bpm" "above normal range" = true) ∧
    (DataValidator.validate_reading defaultConfig hr250beats).length = 2 := by
  refine ⟨?_, ?_, ?_, by decide, ⟨by decide, by decide⟩, by decide⟩
  · intro config reading h
    unfold DataValidator.validate_reading
    simp [h]
  · intro config reading h
    unfold DataValidator.validate_reading
    rw [h]
    rw [if_neg (by simp)]
    simp only [List.length_append]
    by_cases h1 : reading.device_id = "" <;> by_cases h2 : reading.patient_id = "" <;>
      by_cases h3 : reading.unit = "" <;> simp [h1, h2, h3]
  · intro reading range_info h
    unfold DataValidationRules.validate_reading
    rw [h]
    simp only [List.length_append]
    by_cases h1 : reading.value < range_info.min <;>
      by_cases h2 : reading.value > range_info.max <;>
      by_cases h3 : reading.unit = range_info.unit <;> simp [h1, h2, h3]

/-- Witness for C9 at concrete inputs. -/
theorem c9_validate_reading_behavior_witness :
    DataValidator.validate_reading cfgValidationOff hr250 = [] ∧
    (DataValidator.validate_reading defaultConfig hr250).length =
      ((if hr250.device_id = "" then 1 else 0) +
       (if hr250.patient_id = "" then 1 else 0) +
       (if hr250.unit = "" then 1 else 0)) +
      (DataValidationRules.validate_reading hr250).length ∧
    (DataValidationRules.validate_reading hr250beats).length =
      (if hr250beats.value < (30 : ℚ) then 1 else 0) +
      (if hr250beats.value > (200 : ℚ) then 1 else 0) +
      (if hr250beats.unit ≠ "bpm" then 1 else 0) :=
  ⟨c9_validate_reading_behavior.1 cfgValidationOff hr250 (by rfl),
   c9_validate_reading_behavior.2.1 defaultConfig hr250 (by rfl),
   c9_validate_reading_behavior.2.2.1 hr250beats ⟨30, 200, "bpm"⟩ (by decide)⟩

/-- C2: for a stored token with expires_at set, get_token returns absent
and evicts the entry exactly when now + 5 minutes is at or past
expires_at (including the exact boundary), returns the token and leaves
the cache unchanged otherwise; a stored token with no expires_at is
always returned and never evicted. -/
theorem c2_token_cache_get_expiry (now : Int) (cache : TokenCacheMap) (m : String)
    (t : AuthToken) (hstored : cache m = some t) :
    (t.expires_at = none → TokenCache.get_token now cache m = (some t, cache)) ∧
    (∀ e, t.expires_at = some e →
      (now + 300 ≥ e →
          (TokenCache.get_token now cache m).1 = none ∧
          (TokenCache.get_token now cache m).2 m = none) ∧
      (now + 300 < e → TokenCache.get_token now cache m = (some t, cache))) := by
  have hget : TokenCache.get_token now cache m =
      if TokenCache.is_token_expired now t then
        (none, fun k => if k = m then none else cache k)
      else (some t, cache) := by
    unfold TokenCache.get_token
    rw [hstored]
  constructor
  · intro hnone
    have hexp : TokenCache.is_token_expired now t = false := by
      unfold TokenCache.is_token_expired
      rw [hnone]
    rw [hget, hexp]
    simp
  · intro e he
    constructor
    · intro hge
      have hexp : TokenCache.is_token_expired now t = true := by
        unfold TokenCache.is_token_expired
        rw [he]
        simpa using hge
      rw [hget, hexp]
      simp
    · intro hlt
      have hexp : TokenCache.is_token_expired now t = false := by
        unfold TokenCache.is_token_expired
        rw [he]
        simpa using by omega
      rw [hget, hexp]
      simp

/-- Witness for C2 at the exact buffer boundary: the token is treated
as expired, absent is returned, the entry is evicted. -/
theorem c2_token_cache_get_expiry_witness :
    (TokenCache.get_token 1000 c2CacheExample "boston_scientific").1 = none ∧
    (TokenCache.get_token 1000 c2CacheExample "boston_scientific").2 "boston_scientific" = none :=
  (c2_token_cache_get_expiry 1000 c2CacheExample "boston_scientific"
    { access_token := "tok", expires_at := some 1300 } (by decide)).2 1300 rfl
    |>.1 (by decide)

lemma readingKeyMatches_iff (s r : DeviceReading) :
    readingKeyMatches s r = true ↔
      (s.device_id = r.device_id ∧ s.reading_type = r.reading_type ∧
        s.timestamp = r.timestamp) := by
  simp [readingKeyMatches, and_assoc]

lemma readingKeyMatches_trans {a b c : DeviceReading}
    (h1 : readingKeyMatches a b = true) (h2 : readingKeyMatches b c = true) :
    readingKeyMatches a c = true := by
  rw [readingKeyMatches_iff] at h1 h2 ⊢
  exact ⟨h1.1.trans h2.1, h1.2.1.trans h2.2.1, h1.2.2.trans h2.2.2⟩

lemma is_duplicate_iff (stored : List DeviceReading) (r : DeviceReading) :
    DatabaseConnection.is_duplicate_reading stored r = true ↔
      ∃ s ∈ stored, readingKeyMatches s r = true := by
  simp [DatabaseConnection.is_duplicate_reading, List.any_eq_true]

lemma is_duplicate_append (s1 s2 : List DeviceReading) (r : DeviceReading) :
    DatabaseConnection.is_duplicate_reading (s1 ++ s2) r =
      (DatabaseConnection.is_duplicate_reading s1 r ||
        DatabaseConnection.is_duplicate_reading s2 r) := by
  simp [DatabaseConnection.is_duplicate_reading, List.any_append]

lemma store_device_readings_length (readings : List DeviceReading) :
    ∀ stored, ((DatabaseConnection.store_device_readings readings stored).2).length =
      stored.length + (DatabaseConnection.store_device_readings readings stored).1 := by
  induction readings with
  | nil => intro stored; simp [DatabaseConnection.store_device_readings]
  | cons r rest ih =>
      intro stored
      unfold DatabaseConnection.store_device_readings
      by_cases h : DatabaseConnection.is_duplicate_reading stored r
      · simp [h, ih stored]
      · have := ih (stored ++ [r])
        simp only [h, Bool.false_eq_true, if_false]
        simp only [List.length_append, List.length_singleton] at this
        omega

lemma store_device_readings_presence (readings : List DeviceReading) :
    ∀ stored r0,
      (DatabaseConnection.is_duplicate_reading
          (DatabaseConnection.store_device_readings readings stored).2 r0 = true ↔
        (DatabaseConnection.is_duplicate_reading stored r0 = true ∨
          ∃ r ∈ readings, readingKeyMatches r r0 = true)) := by
  induction readings with
  | nil => intro stored r0; simp [DatabaseConnection.store_device_readings]
  | cons r rest ih =>
      intro stored r0
      unfold DatabaseConnection.store_device_readings
      by_cases h : DatabaseConnection.is_duplicate_reading stored r
      · simp only [h, if_true, ih stored r0, List.mem_cons]
        constructor
        · rintro (hs | ⟨x, hx, hk⟩)
          · exact Or.inl hs
          · exact Or.inr ⟨x, Or.inr hx, hk⟩
        · rintro (hs | ⟨x, hx | hx, hk⟩)
          · exact Or.inl hs
          · rw [hx] at hk
            rcases (is_duplicate_iff stored r).mp h with ⟨s, hsmem, hsk⟩
            exact Or.inl ((is_duplicate_iff stored r0).mpr
              ⟨s, hsmem, readingKeyMatches_trans hsk hk⟩)
          · exact Or.inr ⟨x, hx, hk⟩
      · simp only [h, Bool.false_eq_true, if_false]
        rw [ih (stored ++ [r]) r0]
        rw [is_duplicate_append]
        simp only [Bool.or_eq_true, List.mem_cons]
        have hone : DatabaseConnection.is_duplicate_reading [r] r0 = true ↔
            readingKeyMatches r r0 = true := by
          simp [DatabaseConnection.is_duplicate_reading]
        rw [hone]
        constructor
        · rintro ((hs | hk) | ⟨x, hx, hk⟩)
          · exact Or.inl hs
          · exact Or.inr ⟨r, Or.inl rfl, hk⟩
          · exact Or.inr ⟨x, Or.inr hx, hk⟩
        · rintro (hs | ⟨x, hx | hx, hk⟩)
          · exact Or.inl (Or.inl hs)
          · rw [hx] at hk; exact Or.inl (Or.inr hk)
          · exact Or.inr ⟨x, hx, hk⟩

/-- C3: a batch reading is inserted exactly when no previously stored
row (earlier batch insertions included) shares its
(device_id, reading_type, timestamp) key; the returned count is the
number of net-new rows; persisting two readings with an identical key
(previously absent) yields a total inserted count of 1, whether they
arrive in one batch or in two successive store calls; the duplicate
test involves only the key triple, no time window. -/
theorem c3_store_duplicate_boundary :
    (∀ s r, readingKeyMatches s r = true ↔
        (s.device_id = r.device_id ∧ s.reading_type = r.reading_type ∧
          s.timestamp = r.timestamp)) ∧
    (∀ stored r, DatabaseConnection.is_duplicate_reading stored r = true ↔
        ∃ s ∈ stored, readingKeyMatches s r = true) ∧
    (∀ readings stored,
        ((DatabaseConnection.store_device_readings readings stored).2).length =
          stored.length + (DatabaseConnection.store_device_readings readings stored).1) ∧
    (∀ readings stored r0,
        DatabaseConnection.is_duplicate_reading
            (DatabaseConnection.store_device_readings readings stored).2 r0 = true ↔
          (DatabaseConnection.is_duplicate_reading stored r0 = true ∨
            ∃ r ∈ readings, readingKeyMatches r r0 = true)) ∧
    (∀ r1 r2 stored, readingKeyMatches r1 r2 = true →
        DatabaseConnection.is_duplicate_reading stored r1 = false →
        (DatabaseConnection.store_device_readings [r1, r2] stored).1 = 1 ∧
        (DatabaseConnection.store_device_readings [r1] stored).1 = 1 ∧
        (DatabaseConnection.store_device_readings [r2]
            (DatabaseConnection.store_device_readings [r1] stored).2).1 = 0) := by
  refine ⟨readingKeyMatches_iff, is_duplicate_iff,
    fun readings stored => store_device_readings_length readings stored,
    fun readings stored r0 => store_device_readings_presence readings stored r0,
    ?_⟩
  intro r1 r2 stored hkey hnodup
  have hdup2 : DatabaseConnection.is_duplicate_reading (stored ++ [r1]) r2 = true := by
    rw [is_duplicate_append]
    have : DatabaseConnection.is_duplicate_reading [r1] r2 = true := by
      simp [DatabaseConnection.is_duplicate_reading, hkey]
    simp [this]
  refine ⟨?_, ?_, ?_⟩
  · unfold DatabaseConnection.store_device_readings
    simp only [hnodup, Bool.false_eq_true, if_false]
    unfold DatabaseConnection.store_device_readings
    simp [hdup2, DatabaseConnection.store_device_readings]
  · unfold DatabaseConnection.store_device_readings
    simp [hnodup, DatabaseConnection.store_device_readings]
  · have hfirst : (DatabaseConnection.store_device_readings [r1] stored).2 = stored ++ [r1] := by
      unfold DatabaseConnection.store_device_readings
      simp [hnodup, DatabaseConnection.store_device_readings]
    rw [hfirst]
    unfold DatabaseConnection.store_device_readings
    simp [hdup2, DatabaseConnection.store_device_readings]

/-- Two readings sharing the duplicate key (TEST-001, heart_rate,
timestamp 0) but with different values, for the C3 witness. -/
def hr80sameKey : DeviceReading := { hr72 with value := 80 }

/-- Witness for C3: persisting the two same-key readings into an empty
store, in one batch and sequentially, inserts exactly one row. -/
theorem c3_store_duplicate_boundary_witness :
    (DatabaseConnection.store_device_readings [hr72, hr80sameKey] []).1 = 1 ∧
    (DatabaseConnection.store_device_readings [hr72] []).1 = 1 ∧
    (DatabaseConnection.store_device_readings [hr80sameKey]
        (DatabaseConnection.store_device_readings [hr72] []).2).1 = 0 :=
  c3_store_duplicate_boundary.2.2.2.2 hr72 hr80sameKey [] (by decide) (by decide)

/-- C5: get_valid_token returns a live cached token unchanged; with no
live cached token it fails with the credentials-missing outcome when
the secret store has no credential, with the provider-missing outcome
when no provider is registered, and with the authentication-failed
outcome when the provider raises; on provider success it caches the
fresh token and returns it. -/
theorem c5_get_valid_token_behavior (now : Int) (st : AuthManagerState) (m : String) :
    (∀ t, (TokenCache.get_token now st.tokens m).1 = some t →
        AuthenticationManager.get_valid_token now st m =
          (Except.ok t, { st with tokens := (TokenCache.get_token now st.tokens m).2 })) ∧
    ((TokenCache.get_token now st.tokens m).1 = none → st.credentials m = none →
        (AuthenticationManager.get_valid_token now st m).1 =
          Except.error GetTokenError.credentialsMissing) ∧
    (∀ creds, (TokenCache.get_token now st.tokens m).1 = none →
        st.credentials m = some creds → st.providers m = none →
        (AuthenticationManager.get_valid_token now st m).1 =
          Except.error GetTokenError.providerMissing) ∧
    (∀ creds p e, (TokenCache.get_token now st.tokens m).1 = none →
        st.credentials m = some creds → st.providers m = some p →
        p.authenticate creds = Except.error e →
        (AuthenticationManager.get_valid_token now st m).1 =
          Except.error (GetTokenError.authenticationFailed e)) ∧
    (∀ creds p tok, (TokenCache.get_token now st.tokens m).1 = none →
        st.credentials m = some creds → st.providers m = some p →
        p.authenticate creds = Except.ok tok →
        (AuthenticationManager.get_valid_token now st m).1 = Except.ok tok ∧
        (AuthenticationManager.get_valid_token now st m).2.tokens m = some tok) := by
  refine ⟨?_, ?_, ?_, ?_, ?_⟩
  · intro t h
    unfold AuthenticationManager.get_valid_token
    simp [h]
  · intro h hc
    unfold AuthenticationManager.get_valid_token
    simp [h, hc]
  · intro creds h hc hp
    unfold AuthenticationManager.get_valid_token
    simp [h, hc, hp]
  · intro creds p e h hc hp ha
    unfold AuthenticationManager.get_valid_token
    simp [h, hc, hp, ha]
  · intro creds p tok h hc hp ha
    unfold AuthenticationManager.get_valid_token
    simp [h, hc, hp, ha, TokenCache.store_token]

/-- An AuthenticationManager state with nothing configured, for the C5
witness. -/
def c5StateEmpty : AuthManagerState :=
  { tokens := fun _ => none, credentials := fun _ => none, providers := fun _ => none }

/-- A provider whose authenticate call succeeds with a fixed token,
for the C5 witness. -/
def c5Provider : ProviderBehavior :=
  { authenticate := fun _ => Except.ok { access_token := "fresh" } }

/-- An AuthenticationManager state with credentials and a succeeding
provider registered for boston_scientific, for the C5 witness. -/
def c5StateOk : AuthManagerState :=
  { tokens := fun _ => none,
    credentials := fun k => if k = "boston_scientific"
      then some { manufacturer := "boston_scientific", client_id := "id", client_secret := "sec" }
      else none,
    providers := fun k => if k = "boston_scientific" then some c5Provider else none }

/-- Witness for C5: with no credential stored the call fails with the
credentials-missing outcome; with credentials and a succeeding provider
it returns the fresh token and caches it. -/
theorem c5_get_valid_token_behavior_witness :
    (AuthenticationManager.get_valid_token 0 c5StateEmpty "boston_scientific").1 =
      Except.error GetTokenError.credentialsMissing ∧
    (AuthenticationManager.get_valid_token 0 c5StateOk "boston_scientific").1 =
      Except.ok { access_token := "fresh" } ∧
    (AuthenticationManager.get_valid_token 0 c5StateOk "boston_scientific").2.tokens
        "boston_scientific" = some { access_token := "fresh" } := by
  refine ⟨(c5_get_valid_token_behavior 0 c5StateEmpty "boston_scientific").2.1 rfl rfl, ?_⟩
  have h := (c5_get_valid_token_behavior 0 c5StateOk "boston_scientific").2.2.2.2
    { manufacturer := "boston_scientific", client_id := "id", client_secret := "sec" }
    c5Provider { access_token := "fresh" } rfl rfl rfl rfl
  exact h

lemma request_loop_429_chain (responses : Nat → AttemptOutcome) (max_retries : Nat)
    (ra : Nat → Option Nat) (b : Nat → String) :
    ∀ k attempt sleeps,
      attempt + k ≤ max_retries →
      (∀ i, attempt ≤ i → i < attempt + k →
          responses i = AttemptOutcome.response 429 (ra i) (b i)) →
      BaseHTTPClient.request_loop responses max_retries attempt
          (max_retries + 1 - attempt) sleeps =
        BaseHTTPClient.request_loop responses max_retries (attempt + k)
          (max_retries + 1 - (attempt + k))
          (sleeps ++ (List.range k).map (fun j => (ra (attempt + j)).getD 60)) := by
  intro k
  induction k with
  | zero => intro attempt sleeps _ _; simp
  | succ n ihn =>
      intro attempt sleeps hle hresp
      have hfuel : max_retries + 1 - attempt = (max_retries - attempt) + 1 := by omega
      rw [hfuel]
      conv_lhs => unfold BaseHTTPClient.request_loop
      rw [hresp attempt (Nat.le_refl _) (by omega)]
      have hlt : attempt < max_retries := by omega
      have e1 : ((429 : Nat) == 429) = true := rfl
      simp only [e1, if_true, ite_true]
      rw [if_pos hlt]
      have hfuel2 : max_retries - attempt = max_retries + 1 - (attempt + 1) := by omega
      rw [hfuel2]
      rw [ihn (attempt + 1) (sleeps ++ [(ra attempt).getD 60]) (by omega)
        (fun i h1 h2 => hresp i (by omega) (by omega))]
      have harith : attempt + 1 + n = attempt + (n + 1) := by omega
      rw [harith]
      have hfun : (fun j => (ra (attempt + 1 + j)).getD 60) =
          ((fun j => (ra (attempt + j)).getD 60) ∘ Nat.succ) := by
        funext j
        have hj : attempt + 1 + j = attempt + Nat.succ j := by omega
        simp [Function.comp, hj]
      have hlist : (sleeps ++ [(ra attempt).getD 60]) ++
            (List.range n).map (fun j => (ra (attempt + 1 + j)).getD 60) =
          sleeps ++ (List.range (n + 1)).map (fun j => (ra (attempt + j)).getD 60) := by
        rw [List.range_succ_eq_map, List.map_cons, List.map_map, List.append_assoc,
          List.singleton_append, hfun]
        simp
      rw [hlist]

/-- C4: the HTTP request loop classifies statuses as the spec states:
401 raises AuthenticationError immediately with no retry and no sleep;
any other status at or above 400 (other than 429) raises APIError
immediately; a 2xx returns the parsed body; a run of 429 responses with
attempts remaining sleeps exactly the Retry-After of each response
(default 60) before retrying, returning the eventual 2xx body; an
all-429 run exhausts the budget and raises RateLimitError after
max_retries sleeps. -/
theorem c4_make_request_classification :
    (∀ responses max_retries ra body,
        responses 0 = AttemptOutcome.response 401 ra body →
        BaseHTTPClient.make_request responses max_retries =
          (RequestResult.authenticationFailed, [])) ∧
    (∀ responses max_retries st ra body,
        responses 0 = AttemptOutcome.response st ra body →
        400 ≤ st → st ≠ 429 → st ≠ 401 →
        BaseHTTPClient.make_request responses max_retries =
          (RequestResult.apiErrorStatus st body, [])) ∧
    (∀ responses max_retries st ra body,
        responses 0 = AttemptOutcome.response st ra body → 200 ≤ st → st < 300 →
        BaseHTTPClient.make_request responses max_retries = (RequestResult.ok body, [])) ∧
    (∀ responses max_retries k (ra : Nat → Option Nat) (b : Nat → String) rb body,
        (∀ i, i < k → responses i = AttemptOutcome.response 429 (ra i) (b i)) →
        k ≤ max_retries →
        responses k = AttemptOutcome.response 200 rb body →
        BaseHTTPClient.make_request responses max_retries =
          (RequestResult.ok body, (List.range k).map (fun j => (ra j).getD 60))) ∧
    (∀ responses max_retries (ra : Nat → Option Nat) (b : Nat → String),
        (∀ i, i ≤ max_retries → responses i = AttemptOutcome.response 429 (ra i) (b i)) →
        BaseHTTPClient.make_request responses max_retries =
          (RequestResult.rateLimitExceeded,
            (List.range max_retries).map (fun j => (ra j).getD 60))) := by
  refine ⟨?_, ?_, ?_, ?_, ?_⟩
  · intro responses max_retries ra body h
    unfold BaseHTTPClient.make_request BaseHTTPClient.request_loop
    rw [h]
    simp
  · intro responses max_retries st ra body h h400 h429 h401
    unfold BaseHTTPClient.make_request BaseHTTPClient.request_loop
    rw [h]
    have e429 : (st == 429) = false := by simp [h429]
    have e401 : (st == 401) = false := by simp [h401]
    simp [e429, e401, h400]
  · intro responses max_retries st ra body h h200 h300
    unfold BaseHTTPClient.make_request BaseHTTPClient.request_loop
    rw [h]
    have e429 : (st == 429) = false := by simp; omega
    have e401 : (st == 401) = false := by simp; omega
    have e400 : ¬ (st ≥ 400) := by omega
    simp [e429, e401, e400]
  · intro responses max_retries k ra b rb body h429s hk h200
    unfold BaseHTTPClient.make_request
    have hchain := request_loop_429_chain responses max_retries ra b k 0 []
      (by omega) (fun i h1 h2 => h429s i (by omega))
    simp only [Nat.zero_add, Nat.add_sub_cancel, List.nil_append] at hchain
    have hfuel0 : max_retries + 1 - 0 = max_retries + 1 := by omega
    rw [hfuel0] at hchain
    rw [hchain]
    have hfuel : max_retries + 1 - k = (max_retries - k) + 1 := by omega
    rw [hfuel]
    unfold BaseHTTPClient.request_loop
    rw [h200]
    norm_num
  · intro responses max_retries ra b hall
    unfold BaseHTTPClient.make_request
    have hchain := request_loop_429_chain responses max_retries ra b max_retries 0 []
      (by omega) (fun i h1 h2 => hall i (by omega))
    simp only [Nat.zero_add, List.nil_append] at hchain
    have hfuel0 : max_retries + 1 - 0 = max_retries + 1 := by omega
    rw [hfuel0] at hchain
    rw [hchain]
    have hfuel : max_retries + 1 - max_retries = 1 := by omega
    rw [hfuel]
    unfold BaseHTTPClient.request_loop
    rw [hall max_retries (Nat.le_refl _)]
    simp

/-- The response script of Scenario C: 429 with Retry-After 2 on the
first two attempts, then 200. -/
def c4Responses : Nat → AttemptOutcome := fun i =>
  if i < 2 then AttemptOutcome.response 429 (some 2) "rate limited"
  else AttemptOutcome.response 200 none "body200"

/-- Witness for C4 (Scenario C): with a 3-retry budget, two 429s with
Retry-After 2 followed by a 200 return the 200 body after sleeping 2
seconds twice. -/
theorem c4_make_request_classification_witness :
    BaseHTTPClient.make_request c4Responses 3 = (RequestResult.ok "body200", [2, 2]) := by
  have h := c4_make_request_classification.2.2.2.1 c4Responses 3 2
    (fun _ => (some 2 : Option Nat)) (fun _ => "rate limited") none "body200"
    (fun i hi => by unfold c4Responses; rw [if_pos hi])
    (by omega)
    (by unfold c4Responses; rfl)
  simpa using h

/-- C10: for every token and every instant, the Boston Scientific
provider's is_token_valid is the exact boolean negation of the token
cache's expiry test, so the two 5-minute-buffer checks never disagree,
including at the exact boundary. -/
theorem c10_token_validity_agreement (now : Int) (token : AuthToken) :
    BostonScientificAuthProvider.is_token_valid now token =
      ! TokenCache.is_token_expired now token := by
  unfold BostonScientificAuthProvider.is_token_valid TokenCache.is_token_expired
  cases h : token.expires_at with
  | none => rfl
  | some e =>
      by_cases hlt : now + 300 < e
      · have : ¬ (now + 300 ≥ e) := by omega
        simp [hlt, this]
      · have : now + 300 ≥ e := by omega
        simp [hlt, this]

lemma lookup_ne_none_of_mem {β : Type} :
    ∀ (l : List (Nat × β)) (k : Nat) (v : β), (k, v) ∈ l → l.lookup k ≠ none := by
  intro l k v h
  induction l with
  | nil => exact absurd h (List.not_mem_nil _)
  | cons p rest ih =>
      obtain ⟨k1, v1⟩ := p
      rcases List.mem_cons.mp h with he | hm
      · injection he with h1 h2
        subst h1
        simp [List.lookup]
      · by_cases hk : (k == k1) = true
        · simp [List.lookup, hk]
        · have hk2 : (k == k1) = false := by
            cases hkk : (k == k1)
            · rfl
            · exact absurd hkk hk
          simp only [List.lookup, hk2]
          exact ih hm

lemma filter_valid_all_pass (config : IngestionConfig) (readings : List DeviceReading)
    (henabled : config.validation_enabled = true) :
    ∀ r ∈ DataIngestionPipeline.filter_valid_readings config readings
        (DataValidator.validate_readings_batch config readings),
      DataValidator.validate_reading config r = [] := by
  intro r hr
  unfold DataIngestionPipeline.filter_valid_readings at hr
  by_cases hres : (DataValidator.validate_readings_batch config readings).isEmpty = true
  · have hcond : (config.validation_enabled &&
        !(DataValidator.validate_readings_batch config readings).isEmpty) = false := by
      rw [henabled, hres]
      rfl
    rw [hcond] at hr
    simp only [Bool.false_eq_true, if_false] at hr
    have hnil : DataValidator.validate_readings_batch config readings = [] :=
      List.isEmpty_iff.mp hres
    have hall := List.filterMap_eq_nil_iff.mp (by
      unfold DataValidator.validate_readings_batch at hnil
      exact hnil)
    obtain ⟨i, hi⟩ := List.get?_of_mem hr
    have hmem : (i, r) ∈ readings.enum := List.mk_mem_enum_iff_get?.mpr hi
    have hf := hall (i, r) hmem
    by_cases hv : (DataValidator.validate_reading config r).isEmpty = true
    · exact List.isEmpty_iff.mp hv
    · exfalso
      simp only [hv, Bool.false_eq_true, if_false] at hf
      exact Option.some_ne_none _ hf
  · have hfalse : (DataValidator.validate_readings_batch config readings).isEmpty = false := by
      cases hb : (DataValidator.validate_readings_batch config readings).isEmpty
      · rfl
      · exact absurd hb hres
    have hcond : (config.validation_enabled &&
        !(DataValidator.validate_readings_batch config readings).isEmpty) = true := by
      rw [henabled, hfalse]
      rfl
    rw [hcond] at hr
    simp only [if_true] at hr
    rcases List.mem_filterMap.mp hr with ⟨p, hpmem, hpval⟩
    obtain ⟨i, r1⟩ := p
    by_cases hl : ((DataValidator.validate_readings_batch config readings).lookup i).isSome = true
    · simp only [hl, if_true] at hpval
      exact absurd hpval (by simp)
    · simp only [hl, if_false] at hpval
      injection hpval with hr1
      rw [hr1] at hpmem
      have hi : readings.get? i = some r := List.mk_mem_enum_iff_get?.mp hpmem
      by_cases hv : (DataValidator.validate_reading config r).isEmpty = true
      · exact List.isEmpty_iff.mp hv
      · exfalso
        have hbmem : (i, DataValidator.validate_reading config r) ∈
            DataValidator.validate_readings_batch config readings := by
          unfold DataValidator.validate_readings_batch
          refine List.mem_filterMap.mpr ⟨(i, r), List.mk_mem_enum_iff_get?.mpr hi, ?_⟩
          simp only [hv, Bool.false_eq_true, if_false]
        have hne := lookup_ne_none_of_mem _ i _ hbmem
        cases hcase : (DataValidator.validate_readings_batch config readings).lookup i with
        | none => exact hne hcase
        | some w => rw [hcase] at hl; exact hl rfl

lemma rules_nil_of_validate_nil (config : IngestionConfig) (r : DeviceReading)
    (henabled : config.validation_enabled = true)
    (h : DataValidator.validate_reading config r = []) :
    DataValidationRules.validate_reading r = [] := by
  unfold DataValidator.validate_reading at h
  rw [henabled] at h
  rw [if_neg (by simp)] at h
  have hlen : (DataValidationRules.validate_reading r).length = 0 := by
    have hl := congrArg List.length h
    simp only [List.length_append, List.length_nil] at hl
    omega
  exact List.length_eq_zero.mp hlen

lemma generate_nil_of_rules_nil (uuid : Nat → String) (device : PatientDevice) :
    ∀ readings, (∀ r ∈ readings, DataValidationRules.validate_reading r = []) →
      DataIngestionPipeline.generate_threshold_alerts uuid readings device = [] := by
  intro readings hall
  unfold DataIngestionPipeline.generate_threshold_alerts
  have hpairs : readings.flatMap (fun r =>
      (DataValidationRules.validate_reading r).filterMap (fun v =>
        if strContains v "above normal range" || strContains v "below normal range" then
          some (r, v)
        else none)) = [] := by
    rw [List.bind_eq_nil]
    intro r hr
    rw [hall r hr]
    rfl
  rw [hpairs]
  rfl

/-- C1 counterexample: under the source default configuration
(validation enabled, threshold alerts enabled), a fetched heart_rate
reading of 250 bpm carries a range violation according to the
unfiltered validator, yet device ingestion synthesizes no threshold
alert at all: the violating reading is removed by validation filtering
before _generate_threshold_alerts runs, contradicting the claim that
one alert is synthesized per range violation over all fetched
readings. -/
theorem c1_threshold_alerts_counterexample :
    DataValidationRules.validate_reading hr250 =
      ["heart_rate above normal range: 250 > 200 bpm"] ∧
    envDefault.config.alert_threshold_violations = true ∧
    envDefault.config.validation_enabled = true ∧
    (DataIngestionPipeline.ingest_device_data envDefault deviceA dbEmpty).1.alerts_generated
      = 0 ∧
    ((DataIngestionPipeline.ingest_device_data envDefault deviceA dbEmpty).2).alerts = [] := by
  refine ⟨by decide, rfl, rfl, by decide, by decide⟩

/-- C1 (amended): threshold-alert synthesis runs over the readings
that survived validation filtering, not over all fetched readings.
When validation_enabled is true every reading with any violation is
filtered out first, so no threshold alert is ever synthesized (and
with no native alerts the device's alerts_generated is 0).  When
validation_enabled is false the per-violation rule holds over all
fetched readings: one alert per range violation, alert_type
threshold_violation, severity high when the violation message mentions
Critical and medium otherwise; unit-mismatch and missing-field
violations synthesize no alert. -/
theorem c1_threshold_alerts_amended :
    (∀ config uuid device readings, config.validation_enabled = true →
        DataIngestionPipeline.generate_threshold_alerts uuid
          (DataIngestionPipeline.filter_valid_readings config readings
            (DataValidator.validate_readings_batch config readings)) device = []) ∧
    (∀ env device db client fetched, env.config.validation_enabled = true →
        env.clients.lookup device.manufacturer = some client →
        client.get_recent_readings device.device_id = Except.ok fetched →
        client.get_device_alerts device.device_id = Except.ok [] →
        env.sink = pureSink →
        (DataIngestionPipeline.ingest_device_data env device db).1.alerts_generated = 0) ∧
    ((DataIngestionPipeline.ingest_device_data envValidationOff deviceA dbEmpty).1.alerts_generated = 1 ∧
      (DataIngestionPipeline.ingest_device_data envValidationOff deviceA dbEmpty).2.alerts =
        [{ alert_id := "uuid-0", device_id := "BSC-PAT001-001", patient_id := "PAT001",
           manufacturer := "boston_scientific", alert_type := "threshold_violation",
           severity := AlertSeverity.medium,
           message := "Threshold violation detected: heart_rate above normal range: 250 > 200 bpm",
           timestamp := 0,
           metadata := some { reading_type := "heart_rate", reading_value := 250,
                              reading_unit := "bpm",
                              violation_details := "heart_rate above normal range: 250 > 200 bpm" } }]) ∧
    DataIngestionPipeline.generate_threshold_alerts uuidSeq [hrUnitOnly] deviceA = [] ∧
    DataIngestionPipeline.generate_threshold_alerts uuidSeq [hrMissingId] deviceA = [] := by
  refine ⟨?_, ?_, ⟨by decide, by decide⟩, by decide, by decide⟩
  · intro config uuid device readings henabled
    exact generate_nil_of_rules_nil uuid device _ (fun r hr =>
      rules_nil_of_validate_nil config r henabled
        (filter_valid_all_pass config readings henabled r hr))
  · intro env device db client fetched henabled hlookup hfetch halerts hsink
    unfold DataIngestionPipeline.ingest_device_data
    simp only [hlookup]
    simp only [hfetch]
    by_cases hemp : fetched.isEmpty = true
    · simp only [hemp, if_true]
      unfold DataIngestionPipeline.native_alerts_stage
      rw [halerts]
      simp
    · have hempf : fetched.isEmpty = false := by
        cases hb : fetched.isEmpty
        · rfl
        · exact absurd hb hemp
      simp only [hempf, Bool.false_eq_true, if_false]
      rw [hsink]
      simp only [pureSink]
      have halertsnil : DataIngestionPipeline.generate_threshold_alerts env.uuid
          (DataIngestionPipeline.filter_valid_readings env.config fetched
            (DataValidator.validate_readings_batch env.config fetched)) device = [] :=
        generate_nil_of_rules_nil env.uuid device _ (fun r hr =>
          rules_nil_of_validate_nil env.config r henabled
            (filter_valid_all_pass env.config fetched henabled r hr))
      by_cases hflag : env.config.alert_threshold_violations = true
      · simp only [hflag, if_true, halertsnil, List.isEmpty_nil, if_true]
        unfold DataIngestionPipeline.native_alerts_stage
        rw [halerts]
        simp
      · have hflagf : env.config.alert_threshold_violations = false := by
          cases hb : env.config.alert_threshold_violations
          · rfl
          · exact absurd hb hflag
        simp only [hflagf, Bool.false_eq_true, if_false]
        unfold DataIngestionPipeline.native_alerts_stage
        rw [halerts]
        simp

/-- Witness for C1 (amended): the general conjuncts instantiated at
the default configuration and the concrete single-reading
environment. -/
theorem c1_threshold_alerts_amended_witness :
    DataIngestionPipeline.generate_threshold_alerts uuidSeq
      (DataIngestionPipeline.filter_valid_readings defaultConfig [hr250]
        (DataValidator.validate_readings_batch defaultConfig [hr250])) deviceA = [] ∧
    (DataIngestionPipeline.ingest_device_data envDefault deviceA dbEmpty).1.alerts_generated
      = 0 :=
  ⟨c1_threshold_alerts_amended.1 defaultConfig uuidSeq deviceA [hr250] rfl,
   c1_threshold_alerts_amended.2.1 envDefault deviceA dbEmpty clientHR250 [hr250]
     rfl rfl rfl rfl rfl⟩

/-- C6: any exception during device ingestion is caught rather than
propagated: one error string is recorded, failed_readings is set to
total_readings (the whole device is treated as failed), and the
storage state is exactly what the failing stage left (earlier
persistence is kept).  Shown for a raising reading fetch, a raising
readings store (Scenario E), and a raising native-alerts fetch after a
successful store; the concrete Scenario E run shows the pipeline
proceeding to the next device. -/
theorem c6_device_ingestion_fail_closed :
    (∀ env device db client e,
        env.clients.lookup device.manufacturer = some client →
        client.get_recent_readings device.device_id = Except.error e →
        DataIngestionPipeline.ingest_device_data env device db =
          ({ errors := [DataIngestionPipeline.deviceFailMsg device e] }, db) ∧
        (DataIngestionPipeline.ingest_device_data env device db).1.failed_readings =
          (DataIngestionPipeline.ingest_device_data env device db).1.total_readings) ∧
    (∀ env device db client fetched e db2,
        env.clients.lookup device.manufacturer = some client →
        client.get_recent_readings device.device_id = Except.ok fetched →
        fetched.isEmpty = false →
        env.sink.store_readings
            (DataIngestionPipeline.filter_valid_readings env.config fetched
              (DataValidator.validate_readings_batch env.config fetched)) db =
          Except.error (e, db2) →
        DataIngestionPipeline.ingest_device_data env device db =
          ({ total_readings := fetched.length,
             validation_failures :=
               (DataValidator.validate_readings_batch env.config fetched).length,
             failed_readings := fetched.length,
             errors := [DataIngestionPipeline.deviceFailMsg device e] }, db2)) ∧
    (∀ env device db client fetched e stored db1,
        env.clients.lookup device.manufacturer = some client →
        client.get_recent_readings device.device_id = Except.ok fetched →
        fetched.isEmpty = false →
        env.config.alert_threshold_violations = false →
        env.sink.store_readings
            (DataIngestionPipeline.filter_valid_readings env.config fetched
              (DataValidator.validate_readings_batch env.config fetched)) db =
          Except.ok (stored, db1) →
        client.get_device_alerts device.device_id = Except.error e →
        DataIngestionPipeline.ingest_device_data env device db =
          ({ total_readings := fetched.length,
             validation_failures :=
               (DataValidator.validate_readings_batch env.config fetched).length,
             successful_readings := stored,
             duplicate_readings :=
               (DataIngestionPipeline.filter_valid_readings env.config fetched
                 (DataValidator.validate_readings_batch env.config fetched)).length - stored,
             failed_readings := fetched.length,
             errors := [DataIngestionPipeline.deviceFailMsg device e] }, db1)) ∧
    ((DataIngestionPipeline.ingest_patient_data envScenarioE "PAT001" none dbEmpty).1.total_readings = 2 ∧
     (DataIngestionPipeline.ingest_patient_data envScenarioE "PAT001" none dbEmpty).1.failed_readings = 1 ∧
     (DataIngestionPipeline.ingest_patient_data envScenarioE "PAT001" none dbEmpty).1.successful_readings = 1 ∧
     ((DataIngestionPipeline.ingest_patient_data envScenarioE "PAT001" none dbEmpty).1.errors).length = 1 ∧
     (DataIngestionPipeline.ingest_patient_data envScenarioE "PAT001" none dbEmpty).2.readings = [hr72]) := by
  refine ⟨?_, ?_, ?_, by decide, by decide, by decide, by decide, by decide⟩
  · intro env device db client e hlookup hfetch
    have heq : DataIngestionPipeline.ingest_device_data env device db =
        ({ errors := [DataIngestionPipeline.deviceFailMsg device e] }, db) := by
      unfold DataIngestionPipeline.ingest_device_data
      simp only [hlookup]
      simp only [hfetch]
    exact ⟨heq, by rw [heq]⟩
  · intro env device db client fetched e db2 hlookup hfetch hne hstore
    unfold DataIngestionPipeline.ingest_device_data
    simp only [hlookup]
    simp only [hfetch]
    simp only [hne, Bool.false_eq_true, if_false]
    simp only [hstore]
  · intro env device db client fetched e stored db1 hlookup hfetch hne hflag hstore halerts
    unfold DataIngestionPipeline.ingest_device_data
    simp only [hlookup]
    simp only [hfetch]
    simp only [hne, Bool.false_eq_true, if_false]
    simp only [hstore]
    simp only [hflag, Bool.false_eq_true, if_false]
    unfold DataIngestionPipeline.native_alerts_stage
    simp only [halerts, List.nil_append]

/-- Witness for C6: the three general conjuncts instantiated at the
concrete failing environments. -/
theorem c6_device_ingestion_fail_closed_witness :
    DataIngestionPipeline.ingest_device_data envFetchFail deviceA dbEmpty =
      ({ errors := [DataIngestionPipeline.deviceFailMsg deviceA "connection timeout"] },
        dbEmpty) ∧
    DataIngestionPipeline.ingest_device_data envScenarioE deviceBad dbEmpty =
      ({ total_readings := 1, validation_failures := 0, failed_readings := 1,
         errors := [DataIngestionPipeline.deviceFailMsg deviceBad "database write failed"] },
        dbEmpty) ∧
    DataIngestionPipeline.ingest_device_data envAlertsFail deviceA dbEmpty =
      ({ total_readings := 1, validation_failures := 0, successful_readings := 1,
         duplicate_readings := 0, failed_readings := 1,
         errors := [DataIngestionPipeline.deviceFailMsg deviceA "alerts endpoint down"] },
        { readings := [hr72], alerts := [] }) := by
  refine ⟨(c6_device_ingestion_fail_closed.1 envFetchFail deviceA dbEmpty clientFetchFail
      "connection timeout" rfl rfl).1, ?_, ?_⟩
  · have h := c6_device_ingestion_fail_closed.2.1 envScenarioE deviceBad dbEmpty
      clientTwoDevices [badReading] "database write failed" dbEmpty rfl rfl rfl (by rfl)
    simpa using h
  · have h := c6_device_ingestion_fail_closed.2.2.1 envAlertsFail deviceA dbEmpty
      clientAlertsFail [hr72] "alerts endpoint down" 1 { readings := [hr72], alerts := [] }
      rfl rfl rfl rfl (by rfl) rfl
    simpa using h

/-- C7: ingest_patient_data iterates the requested manufacturers; a
manufacturer whose device discovery raises contributes exactly one
error string and does not abort the rest: the devices discovered for
the succeeding manufacturers are each ingested, the per-device stats
folded into the total field-wise with error lists concatenated. -/
theorem c7_ingest_patient_manufacturer_isolation (env : PipelineEnv) (pid : String)
    (cx cy : ClientBehavior) (e : String) (d1 d2 : PatientDevice) (db : DBState)
    (hx : env.clients.lookup "X" = some cx)
    (hy : env.clients.lookup "Y" = some cy)
    (hxe : cx.get_patient_devices pid = Except.error e)
    (hyd : cy.get_patient_devices pid = Except.ok [d1, d2]) :
    DataIngestionPipeline.ingest_patient_data env pid (some ["X", "Y"]) db =
      (IngestionStats.add
        (IngestionStats.add
          { errors := ["Failed to get devices for patient " ++ pid ++ " from "
              ++ "X" ++ ": " ++ e] }
          (DataIngestionPipeline.ingest_device_data env d1 db).1)
        (DataIngestionPipeline.ingest_device_data env d2
          (DataIngestionPipeline.ingest_device_data env d1 db).2).1,
       (DataIngestionPipeline.ingest_device_data env d2
         (DataIngestionPipeline.ingest_device_data env d1 db).2).2) ∧
    ((DataIngestionPipeline.ingest_patient_data env pid (some ["X", "Y"]) db).1.errors).length
      ≥ 1 := by
  have heq : DataIngestionPipeline.ingest_patient_data env pid (some ["X", "Y"]) db =
      (IngestionStats.add
        (IngestionStats.add
          { errors := ["Failed to get devices for patient " ++ pid ++ " from "
              ++ "X" ++ ": " ++ e] }
          (DataIngestionPipeline.ingest_device_data env d1 db).1)
        (DataIngestionPipeline.ingest_device_data env d2
          (DataIngestionPipeline.ingest_device_data env d1 db).2).1,
       (DataIngestionPipeline.ingest_device_data env d2
         (DataIngestionPipeline.ingest_device_data env d1 db).2).2) := by
    unfold DataIngestionPipeline.ingest_patient_data
    simp only [Option.getD_some, List.foldl_cons, List.foldl_nil]
    simp only [hx, hxe, hy, hyd]
    simp only [List.nil_append, List.foldl_cons, List.foldl_nil]
  refine ⟨heq, ?_⟩
  rw [heq]
  simp only [IngestionStats.add, List.length_append, List.length_cons, List.length_nil]
  omega

/-- Witness for C7 (Scenario D): with manufacturer X raising on
discovery and manufacturer Y returning two devices, the resulting
stats carry at least one error (and both Y devices were ingested by
the preceding theorem's structural equation). -/
theorem c7_ingest_patient_manufacturer_isolation_witness :
    ((DataIngestionPipeline.ingest_patient_data envScenarioD "PAT001" (some ["X", "Y"])
        dbEmpty).1.errors).length ≥ 1 :=
  (c7_ingest_patient_manufacturer_isolation envScenarioD "PAT001" clientXFail clientY2
    "service unavailable" deviceY1 deviceY2 dbEmpty rfl rfl rfl rfl).2

/-- C8 counterexample: with no token available, the Boston Scientific
operations do not fail with AuthenticationError as the claim states:
the internally raised AuthenticationError is caught by the blanket
except-clause and re-raised as a generic APIError (and
acknowledge_alert swallows it, returning False). -/
theorem c8_token_guard_counterexample :
    (BostonScientificClient.get_patient_devices none (Except.ok [])).1 =
      ApiOutcome.apiError "Failed to get patient devices: No valid token available" ∧
    ApiOutcome.isAuthError
      (BostonScientificClient.get_patient_devices none (Except.ok [])).1 = false ∧
    (BostonScientificClient.acknowledge_alert none (Except.ok ())).1 = ApiOutcome.ok false ∧
    ApiOutcome.isAuthError
      (BostonScientificClient.acknowledge_alert none (Except.ok ())).1 = false :=
  ⟨rfl, rfl, rfl, rfl⟩

/-- C8 (amended): every Boston Scientific operation obtains the token
first, and when no token is available no vendor call is attempted; the
failure surfaces as a generic APIError wrapping the
no-valid-token-available message for the four query operations, while
acknowledge_alert returns False; with a token present the vendor call
is attempted. -/
theorem c8_token_guard_amended :
    (∀ api : Except String (List PatientDevice),
        BostonScientificClient.get_patient_devices none api =
          (ApiOutcome.apiError "Failed to get patient devices: No valid token available",
            false)) ∧
    (∀ api : Except String (List DeviceReading),
        BostonScientificClient.get_device_readings none api =
          (ApiOutcome.apiError "Failed to get device readings: No valid token available",
            false)) ∧
    (∀ api : Except String (List DeviceAlert),
        BostonScientificClient.get_device_alerts none api =
          (ApiOutcome.apiError "Failed to get device alerts: No valid token available",
            false)) ∧
    (∀ api : Except String String,
        BostonScientificClient.get_device_status none api =
          (ApiOutcome.apiError "Failed to get device status: No valid token available",
            false)) ∧
    (∀ api : Except String Unit,
        BostonScientificClient.acknowledge_alert none api = (ApiOutcome.ok false, false)) ∧
    (∀ t (api : Except String (List PatientDevice)),
        (BostonScientificClient.get_patient_devices (some t) api).2 = true) ∧
    (∀ t (api : Except String (List DeviceReading)),
        (BostonScientificClient.get_device_readings (some t) api).2 = true) ∧
    (∀ t (api : Except String (List DeviceAlert)),
        (BostonScientificClient.get_device_alerts (some t) api).2 = true) ∧
    (∀ t (api : Except String String),
        (BostonScientificClient.get_device_status (some t) api).2 = true) ∧
    (∀ t (api : Except String Unit),
        (BostonScientificClient.acknowledge_alert (some t) api).2 = true) := by
  refine ⟨fun api => rfl, fun api => rfl, fun api => rfl, fun api => rfl, fun api => rfl,
    ?_, ?_, ?_, ?_, ?_⟩ <;>
    (intro t api; cases api <;> rfl)

end Cardiac
